import Mathlib

/-!
Verification of the signal evaluation and categorization engine of the
investment-notifier repository.  Price series are modelled as `List ℚ`
(ordered oldest to newest, "latest" = last element); pandas `Series`
operations (`rolling().mean()`, `tail`, `max`, `pct_change`, `dropna`)
are transcribed as list functions, and Python `None` / NaN as `Option`.
Human-readable f-string reason fields are abstracted to inductive reason
values carrying the same numeric payloads; wall-clock `date` fields are
omitted.
-/

/-- Last `n` observations of a series, the transcription of `Series.tail(n)`. -/
def tail_n (l : List α) (n : Nat) : List α := l.drop (l.length - n)

/-- Drop missing values, the transcription of `Series.dropna()`. -/
def dropna (l : List (Option ℚ)) : List ℚ := l.filterMap id

/-- Maximum of a series as pandas `Series.max()` computes it, with the
callers' convention that an empty series yields `0.0`. -/
def list_max : List ℚ → ℚ
  | [] => 0
  | x :: xs => xs.foldl max x

/-- Minimum of a series as pandas `Series.min()` computes it, with `0`
for the empty series (callers guard the empty case). -/
def list_min : List ℚ → ℚ
  | [] => 0
  | x :: xs => xs.foldl min x

/-- Daily percentage changes, the transcription of `Series.pct_change().dropna()`:
one entry per consecutive pair.  A zero previous price is idealised to a `0`
change (rational division by zero) where pandas would produce an infinity. -/
def pct_changes : List ℚ → List ℚ
  | [] => []
  | [_] => []
  | a :: b :: rest => (b - a) / a :: pct_changes (b :: rest)

/-- `compute_ma` from `lib/signals.py`: simple moving average via
`series.rolling(window=window).mean()`.  Position `i` holds the mean of the
`window` observations ending at `i`, or `none` (NaN) while fewer than
`window` observations are available. -/
def compute_ma (series : List ℚ) (window : Nat) : List (Option ℚ) :=
  (List.range series.length).map (fun i =>
    if i + 1 < window then none
    else some (((series.take (i + 1)).drop (i + 1 - window)).sum / (window : ℚ)))

/-- `compute_ma_slope` from `lib/signals.py`: relative change of the moving
average between `slope_window` smoothed observations ago and now;
`0` on insufficient smoothed history or a zero starting value. -/
def compute_ma_slope (series : List ℚ) (ma_window : Nat) (slope_window : Nat := 10) : ℚ :=
  let ma := dropna (compute_ma series ma_window)
  if ma.length < slope_window then 0
  else
    match tail_n ma slope_window with
    | [] => 0
    | x :: xs =>
      if x = 0 then 0
      else ((x :: xs).getLastD x - x) / x

/-- `get_ma_value` from `lib/signals.py`: the latest moving-average value,
`none` when no smoothed value exists yet. -/
def get_ma_value (series : List ℚ) (window : Nat) : Option ℚ :=
  (dropna (compute_ma series window)).getLast?

/-- `compute_drawdown` from `lib/signals.py`: `(high - price) / high`,
clamped to `0` when the reference high is not positive. -/
def compute_drawdown (current_price high_price : ℚ) : ℚ :=
  if high_price ≤ 0 then 0
  else (high_price - current_price) / high_price

/-- `get_period_high` from `lib/signals.py`: highest value among the last
`days` observations (`series.tail(days).max()`), `0` for an empty result —
note the source takes the maximum of whatever observations are available
when the series is shorter than `days`. -/
def get_period_high (series : List ℚ) (days : Nat) : ℚ :=
  list_max (tail_n series days)

/-- The multi-timeframe high set returned by `get_multi_timeframe_highs`. -/
structure MultiTimeframeHighs where
  high_1d : ℚ
  high_1w : ℚ
  high_1m : ℚ
  high_3m : ℚ
  high_6m : ℚ
  deriving DecidableEq

/-- `get_multi_timeframe_highs` from `lib/signals.py`. -/
def get_multi_timeframe_highs (high_series : List ℚ) : MultiTimeframeHighs :=
  { high_1d := high_series.getLastD 0
    high_1w := get_period_high high_series 5
    high_1m := get_period_high high_series 21
    high_3m := get_period_high high_series 63
    high_6m := get_period_high high_series 126 }

/-- `check_stability` from `lib/signals.py`: fails closed on short series,
otherwise requires every daily change over the trailing `days` observations
to stay strictly above `-max_single_day_drop`. -/
def check_stability (series : List ℚ) (days : Nat) (max_single_day_drop : ℚ) : Bool :=
  if series.length < days then false
  else
    match pct_changes (tail_n series days) with
    | [] => true
    | c :: cs => decide (-max_single_day_drop < list_min (c :: cs))

/-- `is_overheated` from `lib/signals.py`. -/
def is_overheated (current_price short_ma : ℚ) (max_multiple : ℚ := 1.12) : Bool :=
  if short_ma ≤ 0 then false
  else decide (short_ma * max_multiple < current_price)

/-- `is_above_ma` from `lib/signals.py` (the `None` guard is handled by the
callers' `Option` matching; a non-positive average also fails). -/
def is_above_ma (current_price ma_value : ℚ) : Bool :=
  if ma_value ≤ 0 then false
  else decide (ma_value < current_price)

/-- `is_ma_crossover_bearish` from `lib/signals.py` on already-defined
averages: short MA strictly below long MA. -/
def is_ma_crossover_bearish (short_ma long_ma : ℚ) : Bool :=
  decide (short_ma < long_ma)

/-- `is_ma_slope_rising` from `lib/signals.py`. -/
def is_ma_slope_rising (slope : ℚ) (threshold : ℚ := -0.01) : Bool :=
  decide (threshold ≤ slope)

/-- `days_below_ma` from `lib/signals.py`: over the trailing `check_days`
observations, count days whose close is strictly below the same-day moving
average (a NaN average never counts, as in the pandas comparison). -/
def days_below_ma (close_series : List ℚ) (ma_window check_days : Nat) : Nat :=
  if close_series.length < ma_window then 0
  else
    let ma := compute_ma close_series ma_window
    let recent_close := tail_n close_series check_days
    let recent_ma := tail_n ma check_days
    if recent_close.length ≠ recent_ma.length then 0
    else ((recent_close.zip recent_ma).filter (fun p =>
      match p.2 with
      | some m => decide (p.1 < m)
      | none => false)).length

/-- The resolved scoring weights dictionary of `compute_discovery_score`. -/
structure Weights where
  above_ma : ℚ
  slope : ℚ
  drawdown : ℚ
  relative_strength : ℚ
  deriving DecidableEq

/-- Default weights (`0.25` each), as built when `weights is None` and by
`get_discovery_scoring_thresholds` in `lib/config.py`. -/
def defaultWeights : Weights :=
  { above_ma := 0.25, slope := 0.25, drawdown := 0.25, relative_strength := 0.25 }

/-- Above-MA term of `compute_discovery_score`: the full weight when the
price is above the long MA, otherwise nothing. -/
def above_ma_component (above : Bool) (w : ℚ) : ℚ :=
  if above then w else 0

/-- Slope term of `compute_discovery_score`: `min(slope/0.05, 1) * w`
when the slope is positive, otherwise nothing. -/
def slope_component (slope w : ℚ) : ℚ :=
  if 0 < slope then min (slope / 0.05) 1 * w else 0

/-- Drawdown term of `compute_discovery_score`: `(1 - drawdown/0.10) * w`
when the drawdown is below `0.10`, otherwise nothing. -/
def drawdown_component (drawdown w : ℚ) : ℚ :=
  if drawdown < 0.10 then (1 - drawdown / 0.10) * w else 0

/-- Relative-strength term of `compute_discovery_score`:
`min(rs/0.05, 1) * w` when positive, otherwise nothing. -/
def rs_component (relative_strength w : ℚ) : ℚ :=
  if 0 < relative_strength then min (relative_strength / 0.05) 1 * w else 0

/-- `compute_discovery_score` from `lib/signals.py`: the four weighted
terms are accumulated into `score` and the result is `min(score, 1.0)`. -/
def compute_discovery_score (drawdown slope : ℚ) (above : Bool)
    (relative_strength : ℚ) (weights : Weights) : ℚ :=
  min (above_ma_component above weights.above_ma
    + slope_component slope weights.slope
    + drawdown_component drawdown weights.drawdown
    + rs_component relative_strength weights.relative_strength) 1

/-- A value is the maximum of a list: it occurs in the list and bounds it. -/
def is_max_of (v : ℚ) (l : List ℚ) : Prop :=
  v ∈ l ∧ ∀ x ∈ l, x ≤ v

/-- A fetched per-symbol frame: `nrows` is `len(df)`, and the close / high
columns may contain missing observations (NaN, modelled as `none`). -/
structure DataFrame where
  nrows : Nat
  close : List (Option ℚ)
  high : List (Option ℚ)
  deriving DecidableEq

/-- `get_close_series` from `lib/market_data.py`: the close column with
missing values dropped (empty for an empty frame). -/
def get_close_series (df : DataFrame) : List ℚ :=
  if df.nrows = 0 then [] else dropna df.close

/-- `get_high_series` from `lib/market_data.py`. -/
def get_high_series (df : DataFrame) : List ℚ :=
  if df.nrows = 0 then [] else dropna df.high

/-- Exit-rule thresholds as resolved by `get_exit_thresholds` in
`lib/config.py` (absent keys already replaced by their defaults). -/
structure ExitThresholds where
  enabled : Bool
  use_ma_crossover : Bool
  short_ma : Nat
  long_ma : Nat
  drawdown_lookback_days : Nat
  drawdown_exit_threshold : ℚ
  price_below_long_ma_days : Nat
  deriving DecidableEq

/-- The documented defaults of `get_exit_thresholds`. -/
def defaultExitThresholds : ExitThresholds :=
  { enabled := true, use_ma_crossover := true, short_ma := 50, long_ma := 100
    drawdown_lookback_days := 63, drawdown_exit_threshold := 0.10
    price_below_long_ma_days := 3 }

/-- Entry-rule thresholds as resolved by `get_entry_thresholds` in
`lib/config.py`. -/
structure EntryThresholds where
  enabled : Bool
  price_above_long_ma : Bool
  long_ma : Nat
  short_ma : Nat
  long_ma_slope_days : Nat
  lookback_high_days : Nat
  min_pullback : ℚ
  max_pullback : ℚ
  stability_days : Nat
  max_single_day_drop : ℚ
  overheat_enabled : Bool
  overheat_multiple : ℚ
  deriving DecidableEq

/-- The documented defaults of `get_entry_thresholds`. -/
def defaultEntryThresholds : EntryThresholds :=
  { enabled := true, price_above_long_ma := true, long_ma := 100, short_ma := 50
    long_ma_slope_days := 10, lookback_high_days := 42
    min_pullback := 0.05, max_pullback := 0.08
    stability_days := 5, max_single_day_drop := 0.07
    overheat_enabled := true, overheat_multiple := 1.12 }

/-- Stress-opportunity thresholds as resolved by
`get_stress_opportunity_thresholds` in `lib/config.py`. -/
structure StressThresholds where
  enabled : Bool
  requires_stress_confirmation : Bool
  stress_watch_symbols : List String
  stress_vixy_trending_up : Bool
  stress_kre_below_long_ma : Bool
  stress_spy_drawdown_threshold : ℚ
  dip_lookback_days : Nat
  min_drawdown : ℚ
  max_drawdown : ℚ
  prefer_above_long_ma : Bool
  long_ma : Nat
  deriving DecidableEq

/-- The documented defaults of `get_stress_opportunity_thresholds`. -/
def defaultStressThresholds : StressThresholds :=
  { enabled := true, requires_stress_confirmation := true
    stress_watch_symbols := ["SPY", "VIXY", "KRE"]
    stress_vixy_trending_up := true, stress_kre_below_long_ma := true
    stress_spy_drawdown_threshold := 0.08, dip_lookback_days := 126
    min_drawdown := 0.15, max_drawdown := 0.35
    prefer_above_long_ma := true, long_ma := 200 }

/-- Discovery scoring configuration as resolved by
`get_discovery_scoring_thresholds` in `lib/config.py` (only the fields
`evaluate_core_trend_candidate` reads: the score gate and the weights). -/
structure ScoringThresholds where
  min_score : ℚ
  weights : Weights
  deriving DecidableEq

/-- The fixed values produced by `get_discovery_scoring_thresholds`. -/
def defaultScoringThresholds : ScoringThresholds :=
  { min_score := 0.5, weights := defaultWeights }

/-- Candidate record emitted by `evaluate_core_trend_candidate` in
`discover_symbols.py` (the presentation-only `reason` f-string is omitted). -/
structure CoreTrendRecord where
  symbol : String
  category : String
  price : ℚ
  dma_100 : ℚ
  dma_50 : Option ℚ
  high_1d : ℚ
  high_1w : ℚ
  high_1m : ℚ
  high_3m : ℚ
  drop_1d : ℚ
  drop_1w : ℚ
  drop_1m : ℚ
  drop_3m : ℚ
  drawdown_pct : ℚ
  slope_pct : ℚ
  score : ℚ
  status : String
  deriving DecidableEq

/-- `evaluate_core_trend_candidate` from `discover_symbols.py`. -/
def evaluate_core_trend_candidate (symbol : String) (close_series high_series : List ℚ)
    (thresholds : EntryThresholds) (scoring : ScoringThresholds) : Option CoreTrendRecord :=
  let current_price := close_series.getLastD 0
  let short_ma := get_ma_value close_series thresholds.short_ma
  match get_ma_value close_series thresholds.long_ma with
  | none => none
  | some long_ma =>
    if !is_above_ma current_price long_ma then none
    else
      let slope := compute_ma_slope close_series thresholds.long_ma thresholds.long_ma_slope_days
      if slope < -0.01 then none
      else
        let recent_high := get_period_high high_series thresholds.lookback_high_days
        let drawdown := compute_drawdown current_price recent_high
        let score := compute_discovery_score drawdown slope true 0 scoring.weights
        if score < scoring.min_score then none
        else
          let status :=
            if thresholds.min_pullback ≤ drawdown ∧ drawdown < thresholds.max_pullback
            then "pullback_zone" else "watch"
          let highs := get_multi_timeframe_highs high_series
          some { symbol := symbol, category := "core_trend", price := current_price
                 dma_100 := long_ma, dma_50 := short_ma
                 high_1d := highs.high_1d, high_1w := highs.high_1w
                 high_1m := highs.high_1m, high_3m := highs.high_3m
                 drop_1d := compute_drawdown current_price highs.high_1d * 100
                 drop_1w := compute_drawdown current_price highs.high_1w * 100
                 drop_1m := compute_drawdown current_price highs.high_1m * 100
                 drop_3m := compute_drawdown current_price highs.high_3m * 100
                 drawdown_pct := drawdown * 100, slope_pct := slope * 100
                 score := score, status := status }

/-- Watchlist record emitted by `evaluate_stress_opportunity_candidate`
in `discover_symbols.py` (`reason` f-string omitted). -/
structure StressRecord where
  symbol : String
  category : String
  price : ℚ
  dma_200 : Option ℚ
  high_1d : ℚ
  high_1w : ℚ
  high_1m : ℚ
  high_3m : ℚ
  drop_1d : ℚ
  drop_1w : ℚ
  drop_1m : ℚ
  drop_3m : ℚ
  drawdown_pct : ℚ
  above_200dma : Bool
  status : String
  deriving DecidableEq

/-- `evaluate_stress_opportunity_candidate` from `discover_symbols.py`:
banks are always included in the watchlist, only the status varies. -/
def evaluate_stress_opportunity_candidate (symbol : String)
    (close_series high_series : List ℚ) (thresholds : StressThresholds) :
    Option StressRecord :=
  let current_price := close_series.getLastD 0
  let long_ma := get_ma_value close_series thresholds.long_ma
  let recent_high := get_period_high high_series thresholds.dip_lookback_days
  let drawdown := compute_drawdown current_price recent_high
  let above_200dma : Bool :=
    match long_ma with
    | some m => decide (m < current_price)
    | none => false
  let status :=
    if thresholds.min_drawdown ≤ drawdown ∧ drawdown ≤ thresholds.max_drawdown
    then "opportunity_zone" else "watch"
  let highs := get_multi_timeframe_highs high_series
  some { symbol := symbol, category := "stress_opportunities", price := current_price
         dma_200 := long_ma
         high_1d := highs.high_1d, high_1w := highs.high_1w
         high_1m := highs.high_1m, high_3m := highs.high_3m
         drop_1d := compute_drawdown current_price highs.high_1d * 100
         drop_1w := compute_drawdown current_price highs.high_1w * 100
         drop_1m := compute_drawdown current_price highs.high_1m * 100
         drop_3m := compute_drawdown current_price highs.high_3m * 100
         drawdown_pct := drawdown * 100, above_200dma := above_200dma
         status := status }

/-- Reason payload of an exit-risk alert, abstracting the f-strings of
`check_exit_risk` in `investor_alert.py`. -/
inductive ExitReason where
  | trendWeakening (short_ma long_ma : Nat)
  | drawdownFromHigh (drawdown : ℚ) (lookback : Nat)
  | belowLongMa (long_ma : Nat) (below_count : Nat)
  deriving DecidableEq

/-- Alert emitted by `check_exit_risk` (the `drawdown_pct` key is present
only on the drawdown branch, hence the `Option`). -/
structure ExitAlert where
  symbol : String
  reason : ExitReason
  price : ℚ
  dma_50 : ℚ
  dma_100 : ℚ
  drawdown_pct : Option ℚ
  deriving DecidableEq

/-- `check_exit_risk` from `investor_alert.py`: the three exit triggers in
source order — bearish MA crossover, drawdown from the lookback high,
price below the long MA for enough days. -/
def check_exit_risk (symbol : String) (close_series high_series : List ℚ)
    (thresholds : ExitThresholds) : Option ExitAlert :=
  if !thresholds.enabled then none
  else
    let current_price := close_series.getLastD 0
    match get_ma_value close_series thresholds.short_ma,
          get_ma_value close_series thresholds.long_ma with
    | some short_ma, some long_ma =>
      if thresholds.use_ma_crossover && is_ma_crossover_bearish short_ma long_ma then
        some { symbol := symbol
               reason := .trendWeakening thresholds.short_ma thresholds.long_ma
               price := current_price, dma_50 := short_ma, dma_100 := long_ma
               drawdown_pct := none }
      else
        let recent_high := get_period_high high_series thresholds.drawdown_lookback_days
        let drawdown := compute_drawdown current_price recent_high
        if thresholds.drawdown_exit_threshold ≤ drawdown then
          some { symbol := symbol
                 reason := .drawdownFromHigh drawdown thresholds.drawdown_lookback_days
                 price := current_price, dma_50 := short_ma, dma_100 := long_ma
                 drawdown_pct := some (drawdown * 100) }
        else
          if 0 < thresholds.price_below_long_ma_days then
            let below_count :=
              days_below_ma close_series thresholds.long_ma thresholds.price_below_long_ma_days
            if thresholds.price_below_long_ma_days ≤ below_count then
              some { symbol := symbol
                     reason := .belowLongMa thresholds.long_ma below_count
                     price := current_price, dma_50 := short_ma, dma_100 := long_ma
                     drawdown_pct := none }
            else none
          else none
    | _, _ => none

/-- Alert emitted by `check_entry_opportunity` (the pullback that fired is
the payload of its only reason f-string). -/
structure EntryAlert where
  symbol : String
  reason_pullback : ℚ
  price : ℚ
  dma_50 : Option ℚ
  dma_100 : ℚ
  drawdown_pct : ℚ
  deriving DecidableEq

/-- `check_entry_opportunity` from `investor_alert.py`: trend filter, MA
slope, pullback window, overheat filter (skipped when the short MA is
missing or zero, matching Python truthiness), stability filter. -/
def check_entry_opportunity (symbol : String) (close_series high_series : List ℚ)
    (thresholds : EntryThresholds) : Option EntryAlert :=
  if !thresholds.enabled then none
  else
    let current_price := close_series.getLastD 0
    let short_ma := get_ma_value close_series thresholds.short_ma
    match get_ma_value close_series thresholds.long_ma with
    | none => none
    | some long_ma =>
      if thresholds.price_above_long_ma && !is_above_ma current_price long_ma then none
      else
        let slope := compute_ma_slope close_series thresholds.long_ma thresholds.long_ma_slope_days
        if !is_ma_slope_rising slope then none
        else
          let recent_high := get_period_high high_series thresholds.lookback_high_days
          let pullback := compute_drawdown current_price recent_high
          if pullback < thresholds.min_pullback ∨ thresholds.max_pullback ≤ pullback then none
          else
            if (thresholds.overheat_enabled && decide (short_ma.getD 0 ≠ 0))
                && is_overheated current_price (short_ma.getD 0) thresholds.overheat_multiple
            then none
            else
              if !check_stability close_series thresholds.stability_days
                    thresholds.max_single_day_drop then none
              else
                some { symbol := symbol, reason_pullback := pullback
                       price := current_price, dma_50 := short_ma, dma_100 := long_ma
                       drawdown_pct := pullback * 100 }

/-- Alert emitted by `check_bank_opportunity` (`reason` drawdown payload
kept as `drawdown_pct`). -/
structure BankAlert where
  symbol : String
  price : ℚ
  drawdown_pct : ℚ
  above_200dma : Bool
  dma_200 : Option ℚ
  deriving DecidableEq

/-- `check_bank_opportunity` from `investor_alert.py`: gated on the market
stress confirmation, then on the inclusive dip drawdown range; the 200-DMA
safety flag is recorded but not gating. -/
def check_bank_opportunity (symbol : String) (close_series high_series : List ℚ)
    (thresholds : StressThresholds) (market_stressed : Bool) : Option BankAlert :=
  if !thresholds.enabled then none
  else if thresholds.requires_stress_confirmation && !market_stressed then none
  else
    let current_price := close_series.getLastD 0
    let recent_high := get_period_high high_series thresholds.dip_lookback_days
    let drawdown := compute_drawdown current_price recent_high
    if drawdown < thresholds.min_drawdown ∨ thresholds.max_drawdown < drawdown then none
    else
      let ma_200 := get_ma_value close_series thresholds.long_ma
      let above_200dma : Bool :=
        match ma_200 with
        | some m => decide (m < current_price)
        | none => false
      some { symbol := symbol, price := current_price, drawdown_pct := drawdown * 100
             above_200dma := above_200dma, dma_200 := ma_200 }

/-- SPY stress signal of `check_market_stress`: benchmark drawdown from
its 63-day high at or beyond the threshold. -/
def spy_stress_signal (all_data : List (String × DataFrame))
    (thresholds : StressThresholds) : Nat :=
  match all_data.lookup "SPY" with
  | some df =>
    let spy_close := get_close_series df
    if 0 < spy_close.length then
      if thresholds.stress_spy_drawdown_threshold ≤
          compute_drawdown (spy_close.getLastD 0)
            (get_period_high (get_high_series df) 63)
      then 1 else 0
    else 0
  | none => 0

/-- VIXY stress signal of `check_market_stress`: volatility proxy above its
10-day MA (a missing or zero MA is falsy, as in Python). -/
def vixy_stress_signal (all_data : List (String × DataFrame))
    (thresholds : StressThresholds) : Nat :=
  if thresholds.stress_vixy_trending_up then
    match all_data.lookup "VIXY" with
    | some df =>
      let vixy_close := get_close_series df
      if 10 ≤ vixy_close.length then
        match get_ma_value vixy_close 10 with
        | some vixy_ma =>
          if vixy_ma ≠ 0 ∧ vixy_ma < vixy_close.getLastD 0 then 1 else 0
        | none => 0
      else 0
    | none => 0
  else 0

/-- KRE stress signal of `check_market_stress`: financial-sector proxy
below its 100-day MA. -/
def kre_stress_signal (all_data : List (String × DataFrame))
    (thresholds : StressThresholds) : Nat :=
  if thresholds.stress_kre_below_long_ma then
    match all_data.lookup "KRE" with
    | some df =>
      let kre_close := get_close_series df
      if 100 ≤ kre_close.length then
        match get_ma_value kre_close 100 with
        | some kre_ma =>
          if kre_ma ≠ 0 ∧ kre_close.getLastD 0 < kre_ma then 1 else 0
        | none => 0
      else 0
    | none => 0
  else 0

/-- Number of independent stress signals accumulated by
`check_market_stress` in `investor_alert.py`. -/
def stress_signal_count (all_data : List (String × DataFrame))
    (thresholds : StressThresholds) : Nat :=
  spy_stress_signal all_data thresholds + vixy_stress_signal all_data thresholds
    + kre_stress_signal all_data thresholds

/-- `check_market_stress` from `investor_alert.py`: stressed iff at least
2 of the 3 signals fired. -/
def check_market_stress (all_data : List (String × DataFrame))
    (thresholds : StressThresholds) : Bool :=
  decide (2 ≤ stress_signal_count all_data thresholds)

/-- Reason payload of the always-computed status label of
`get_symbol_metrics`, abstracting its f-strings. -/
inductive MetricsReason where
  | maCrossover
  | drawdownPct (drawdown : ℚ)
  | pullbackPct (drawdown : ℚ)
  | strongUptrend
  | aboveMa100
  | belowMa100
  deriving DecidableEq

/-- Metrics row of `get_symbol_metrics` in `investor_alert.py`
(wall-clock `date` field omitted). -/
structure MonitorMetrics where
  symbol : String
  price : ℚ
  dma_50 : ℚ
  dma_100 : ℚ
  high_1d : ℚ
  high_1w : ℚ
  high_1m : ℚ
  high_3m : ℚ
  drop_1d : ℚ
  drop_1w : ℚ
  drop_1m : ℚ
  drop_3m : ℚ
  drawdown_pct : ℚ
  dma_slope_pct : ℚ
  status : String
  status_reason : MetricsReason
  deriving DecidableEq

/-- `get_symbol_metrics` from `investor_alert.py`: all metrics plus the
always-computed status label, assigned by the source's if/elif chain
(drawdown here is measured from the 1-day high). -/
def get_symbol_metrics (symbol : String) (close_series high_series : List ℚ)
    (exit_thresholds : ExitThresholds) (entry_thresholds : EntryThresholds) :
    Option MonitorMetrics :=
  if close_series.length < 100 then none
  else
    match get_ma_value close_series 50, get_ma_value close_series 100 with
    | some dma_50, some dma_100 =>
      let current_price := close_series.getLastD 0
      let dma_slope := compute_ma_slope close_series 100 10
      let highs := get_multi_timeframe_highs high_series
      let drawdown := compute_drawdown current_price highs.high_1d
      let sr : String × MetricsReason :=
        if dma_50 < dma_100 then
          ("🚨 EXIT RISK", .maCrossover)
        else if exit_thresholds.drawdown_exit_threshold ≤ drawdown then
          ("🚨 EXIT RISK", .drawdownPct drawdown)
        else if dma_100 < current_price ∧ entry_thresholds.min_pullback ≤ drawdown
            ∧ drawdown < entry_thresholds.max_pullback ∧ -0.01 ≤ dma_slope then
          ("🟢 ENTRY OPP", .pullbackPct drawdown)
        else if dma_100 < current_price ∧ dma_100 < dma_50 then
          ("✅ HEALTHY", .strongUptrend)
        else if dma_100 < current_price then
          ("👀 WATCH", .aboveMa100)
        else
          ("⏸️ WAIT", .belowMa100)
      some { symbol := symbol, price := current_price
             dma_50 := dma_50, dma_100 := dma_100
             high_1d := highs.high_1d, high_1w := highs.high_1w
             high_1m := highs.high_1m, high_3m := highs.high_3m
             drop_1d := compute_drawdown current_price highs.high_1d * 100
             drop_1w := compute_drawdown current_price highs.high_1w * 100
             drop_1m := compute_drawdown current_price highs.high_1m * 100
             drop_3m := compute_drawdown current_price highs.high_3m * 100
             drawdown_pct := drawdown * 100, dma_slope_pct := dma_slope * 100
             status := sr.1, status_reason := sr.2 }
    | _, _ => none

/-- The four result lists of `analyze_monitored_symbols` (the source's
returned tuple, as a structure). -/
structure AnalysisResult where
  exit_risks : List ExitAlert
  entry_opps : List EntryAlert
  bank_opps : List BankAlert
  all_metrics : List MonitorMetrics

/-- Per-symbol loop of `analyze_monitored_symbols`: symbols are processed
in list order, alerts collected in order; stress-category symbols are
routed to the bank check only, and an exit alert short-circuits the entry
check (`continue` in the source). -/
def analyze_go (all_data : List (String × DataFrame))
    (exit_thresholds : ExitThresholds) (entry_thresholds : EntryThresholds)
    (stress_thresholds : StressThresholds) (stress_symbols : List String)
    (market_stressed : Bool) : List String → AnalysisResult
  | [] => ⟨[], [], [], []⟩
  | sym :: rest =>
    let r := analyze_go all_data exit_thresholds entry_thresholds stress_thresholds
      stress_symbols market_stressed rest
    match all_data.lookup sym with
    | none => r
    | some df =>
      if df.nrows < 100 then r
      else
        let close := get_close_series df
        let high := get_high_series df
        let r1 :=
          match get_symbol_metrics sym close high exit_thresholds entry_thresholds with
          | some m => { r with all_metrics := m :: r.all_metrics }
          | none => r
        if stress_symbols.contains sym then
          match check_bank_opportunity sym close high stress_thresholds market_stressed with
          | some b => { r1 with bank_opps := b :: r1.bank_opps }
          | none => r1
        else
          match check_exit_risk sym close high exit_thresholds with
          | some a => { r1 with exit_risks := a :: r1.exit_risks }
          | none =>
            match check_entry_opportunity sym close high entry_thresholds with
            | some e => { r1 with entry_opps := e :: r1.entry_opps }
            | none => r1

/-- `analyze_monitored_symbols` from `investor_alert.py`, with the
config-accessor results (`get_exit_thresholds` etc.) passed in resolved
form; market stress is assessed once before the loop.  The unused
`state_dir` / `dedupe_window` parameters of the source are omitted. -/
def analyze_monitored_symbols (monitor_symbols : List String)
    (all_data : List (String × DataFrame))
    (exit_thresholds : ExitThresholds) (entry_thresholds : EntryThresholds)
    (stress_thresholds : StressThresholds) (stress_symbols : List String) :
    AnalysisResult :=
  analyze_go all_data exit_thresholds entry_thresholds stress_thresholds stress_symbols
    (check_market_stress all_data stress_thresholds) monitor_symbols

/-- Fixture close series: 50 closes at 4 then 50 at 2, so the 50-day MA
(2) is below the 100-day MA (3) and the drawdown from a 100 high is 98%. -/
def fixA_close : List ℚ := List.replicate 50 4 ++ List.replicate 50 2

/-- Fixture high series: 100 observations all equal to 100. -/
def flat_high_100 : List ℚ := List.replicate 100 100

/-- Fixture close series: 99 closes at 90 then one at 94 — above both MAs
with a healthy 6% pullback from the 100 high. -/
def fixB_close : List ℚ := List.replicate 99 90 ++ [94]

/-- Expected exit alert for `fixA_close` under default exit thresholds. -/
def fixA_alert : ExitAlert :=
  { symbol := "A", reason := .trendWeakening 50 100, price := 2
    dma_50 := 2, dma_100 := 3, drawdown_pct := none }

/-- Expected entry alert for `fixB_close` under default entry thresholds. -/
def fixB_alert : EntryAlert :=
  { symbol := "B", reason_pullback := 0.06, price := 94
    dma_50 := some (2252 / 25), dma_100 := 2251 / 25, drawdown_pct := 6 }

/-- Frame wrapping `fixA_close` with the flat high series. -/
def fixA_frame : DataFrame :=
  { nrows := 100, close := fixA_close.map some, high := flat_high_100.map some }

/-- Frame wrapping `fixB_close` with the flat high series. -/
def fixB_frame : DataFrame :=
  { nrows := 100, close := fixB_close.map some, high := flat_high_100.map some }

/-- Core-trend fixture: flat at 100, a 91-day dip to 90, flat at 100 again:
the 100-day MA is `909/10` both now and ten observations ago (slope 0),
and the last price 100 sits above it. -/
def c4_close : List ℚ :=
  List.replicate 10 100 ++ (List.replicate 91 90 ++ List.replicate 9 100)

/-- Core-trend fixture highs: flat at 100 with a final spike to `5000/47`,
making the drawdown from the 42-day high exactly 6%. -/
def c4_high : List ℚ := List.replicate 109 100 ++ [5000 / 47]

/-- SPY fixture frame for the market-stress check: 50% drawdown. -/
def spy_frame : DataFrame :=
  { nrows := 2, close := [some 100, some 50], high := [some 100, some 100] }

/-- VIXY fixture frame: ten closes, nine at 1 and the last at 2, so the
latest close is above the 10-day MA `11/10`. -/
def vixy_frame : DataFrame :=
  { nrows := 10, close := (List.replicate 9 (1 : ℚ) ++ [2]).map some, high := [] }

/-- Market data with two firing stress signals (SPY drawdown and VIXY
trending up; no KRE data). -/
def stress_data : List (String × DataFrame) := [("SPY", spy_frame), ("VIXY", vixy_frame)]

/-- Bank fixture close series: drawdown from the 100 high is exactly 15%. -/
def bank_close : List ℚ := [100, 85]

/-- Bank fixture high series. -/
def bank_high : List ℚ := [100, 100]

/-- Monitor run data: symbol A (bearish crossover) and B (healthy pullback). -/
def fixData : List (String × DataFrame) := [("A", fixA_frame), ("B", fixB_frame)]

/-- Monitor run data where S is a stress-category symbol. -/
def fixData10 : List (String × DataFrame) := [("A", fixA_frame), ("S", fixB_frame)]

theorem foldl_max_eq_or_mem (xs : List ℚ) : ∀ x : ℚ,
    xs.foldl max x = x ∨ xs.foldl max x ∈ xs := by
  induction xs with
  | nil => intro x; exact Or.inl rfl
  | cons y ys ih =>
    intro x
    rcases ih (max x y) with h | h
    · rcases max_choice x y with hm | hm
      · exact Or.inl (by rw [List.foldl_cons, h, hm])
      · refine Or.inr ?_
        rw [List.foldl_cons, h, hm]
        exact List.mem_cons_self _ _
    · exact Or.inr (List.mem_cons_of_mem _ (by rw [List.foldl_cons]; exact h))

theorem le_foldl_max (xs : List ℚ) : ∀ x : ℚ,
    x ≤ xs.foldl max x ∧ ∀ y ∈ xs, y ≤ xs.foldl max x := by
  induction xs with
  | nil => intro x; exact ⟨le_refl x, by simp⟩
  | cons z zs ih =>
    intro x
    obtain ⟨h1, h2⟩ := ih (max x z)
    refine ⟨?_, ?_⟩
    · rw [List.foldl_cons]
      exact le_trans (le_max_left x z) h1
    · intro y hy
      rw [List.foldl_cons]
      rcases List.mem_cons.mp hy with rfl | hy
      · exact le_trans (le_max_right x y) h1
      · exact h2 y hy

theorem list_max_spec (l : List ℚ) (h : l ≠ []) : is_max_of (list_max l) l := by
  match l with
  | x :: xs =>
    constructor
    · rcases foldl_max_eq_or_mem xs x with h1 | h1
      · rw [list_max, h1]; exact List.mem_cons_self _ _
      · exact List.mem_cons_of_mem _ h1
    · intro y hy
      rcases List.mem_cons.mp hy with rfl | hy
      · exact (le_foldl_max xs y).1
      · exact (le_foldl_max xs x).2 y hy

theorem tail_n_length (l : List α) (n : Nat) :
    (tail_n l n).length = min n l.length := by
  simp [tail_n]
  omega

theorem dropna_compute_ma (s : List ℚ) (w : Nat) (hw : 0 < w) :
    dropna (compute_ma s w) =
      (List.range (s.length + 1 - w)).map
        (fun j => ((s.drop j).take w).sum / (w : ℚ)) := by
  unfold dropna compute_ma
  rw [List.filterMap_map, Function.id_comp]
  rcases Nat.lt_or_ge s.length w with h | h
  · have h0 : s.length + 1 - w = 0 := by omega
    rw [h0]
    simp only [List.range_zero, List.map_nil]
    rw [List.filterMap_eq_nil]
    intro i hi
    rw [List.mem_range] at hi
    rw [if_pos (by omega)]
  · have hsplit : List.range s.length =
        List.range' 0 (w - 1) ++ List.range' (w - 1) (s.length + 1 - w) := by
      have h2 := List.range'_append 0 (w - 1) (s.length + 1 - w) 1
      simp only [Nat.zero_add, Nat.one_mul] at h2
      rw [List.range_eq_range', h2]
      congr 1
      omega
    rw [hsplit, List.filterMap_append]
    have h1 : (List.range' 0 (w - 1)).filterMap
        (fun i => if i + 1 < w then none
          else some (((s.take (i + 1)).drop (i + 1 - w)).sum / (w : ℚ))) = [] := by
      rw [List.filterMap_eq_nil]
      intro i hi
      rw [List.mem_range'_1] at hi
      rw [if_pos (by omega)]
    rw [h1, List.nil_append]
    rw [List.range'_eq_map_range, List.filterMap_map]
    have hfun : ((fun i => if i + 1 < w then none
          else some (((s.take (i + 1)).drop (i + 1 - w)).sum / (w : ℚ)))
          ∘ (fun x => w - 1 + x)) =
        some ∘ (fun j => ((s.drop j).take w).sum / (w : ℚ)) := by
      funext j
      simp only [Function.comp_apply]
      rw [if_neg (by omega)]
      have hidx1 : w - 1 + j + 1 = w + j := by omega
      rw [hidx1, List.drop_take]
      simp only [Nat.add_sub_cancel_left, Nat.add_sub_cancel]
    rw [hfun, List.filterMap_eq_map]

theorem get_ma_value_eq (s : List ℚ) (w : Nat) (hw : 0 < w) (hlen : w ≤ s.length) :
    get_ma_value s w = some ((tail_n s w).sum / (w : ℚ)) := by
  unfold get_ma_value
  rw [dropna_compute_ma s w hw]
  obtain ⟨k, hk⟩ : ∃ k, s.length + 1 - w = k + 1 := ⟨s.length - w, by omega⟩
  have hkval : k = s.length - w := by omega
  rw [hk, List.range_succ, List.map_append, List.map_cons, List.map_nil,
    List.getLast?_concat]
  have ht : List.take w (List.drop (s.length - w) s) = List.drop (s.length - w) s :=
    List.take_of_length_le (by rw [List.length_drop]; omega)
  rw [hkval, ht, tail_n]

theorem foldl_max_replicate (n : Nat) (x : ℚ) :
    (List.replicate n x).foldl max x = x := by
  induction n with
  | zero => rfl
  | succ m ih => rw [List.replicate_succ, List.foldl_cons, max_self, ih]

theorem list_max_replicate (n : Nat) (x : ℚ) :
    list_max (List.replicate (n + 1) x) = x := by
  rw [List.replicate_succ, list_max, foldl_max_replicate]

theorem above_ma_component_nonneg (b : Bool) (w : ℚ) (hw : 0 ≤ w) :
    0 ≤ above_ma_component b w := by
  unfold above_ma_component
  split
  · exact hw
  · exact le_refl 0

theorem slope_component_nonneg (s w : ℚ) (hw : 0 ≤ w) :
    0 ≤ slope_component s w := by
  unfold slope_component
  split
  · rename_i h
    exact mul_nonneg (le_min (div_nonneg h.le (by norm_num)) zero_le_one) hw
  · exact le_refl 0

theorem drawdown_component_nonneg (d w : ℚ) (hw : 0 ≤ w) :
    0 ≤ drawdown_component d w := by
  unfold drawdown_component
  split
  · rename_i h
    have h1 : d / (0.10 : ℚ) < 1 := by
      rw [div_lt_one (by norm_num)]
      exact h
    exact mul_nonneg (by linarith) hw
  · exact le_refl 0

theorem rs_component_nonneg (rs w : ℚ) (hw : 0 ≤ w) :
    0 ≤ rs_component rs w := by
  unfold rs_component
  split
  · rename_i h
    exact mul_nonneg (le_min (div_nonneg h.le (by norm_num)) zero_le_one) hw
  · exact le_refl 0

theorem above_ma_component_le (b : Bool) (w : ℚ) :
    above_ma_component b w ≤ w ∨ above_ma_component b w = 0 := by
  unfold above_ma_component
  split
  · exact Or.inl (le_refl w)
  · exact Or.inr rfl

theorem slope_component_le (s w : ℚ) (hw : 0 ≤ w) :
    slope_component s w ≤ w := by
  unfold slope_component
  split
  · calc min (s / 0.05) 1 * w ≤ 1 * w :=
        mul_le_mul_of_nonneg_right (min_le_right _ _) hw
      _ = w := one_mul w
  · exact hw

theorem drawdown_component_le (d w : ℚ) (hd : 0 ≤ d) (hw : 0 ≤ w) :
    drawdown_component d w ≤ w := by
  unfold drawdown_component
  split
  · have h1 : 0 ≤ d / (0.10 : ℚ) := div_nonneg hd (by norm_num)
    calc (1 - d / 0.10) * w ≤ 1 * w :=
        mul_le_mul_of_nonneg_right (by linarith) hw
      _ = w := one_mul w
  · exact hw

theorem rs_component_le (rs w : ℚ) (hw : 0 ≤ w) :
    rs_component rs w ≤ w := by
  unfold rs_component
  split
  · calc min (rs / 0.05) 1 * w ≤ 1 * w :=
        mul_le_mul_of_nonneg_right (min_le_right _ _) hw
      _ = w := one_mul w
  · exact hw

/-- C2: for every combination of inputs to the discovery score, including
extreme ones, the value of `compute_discovery_score` under the default
weights lies in the interval `[0, 1]`. -/
theorem c2_discovery_score_in_unit_interval (drawdown slope : ℚ) (above : Bool)
    (relative_strength : ℚ) :
    0 ≤ compute_discovery_score drawdown slope above relative_strength defaultWeights ∧
    compute_discovery_score drawdown slope above relative_strength defaultWeights ≤ 1 := by
  unfold compute_discovery_score
  constructor
  · apply le_min _ zero_le_one
    have h1 := above_ma_component_nonneg above defaultWeights.above_ma
      (by norm_num [defaultWeights])
    have h2 := slope_component_nonneg slope defaultWeights.slope
      (by norm_num [defaultWeights])
    have h3 := drawdown_component_nonneg drawdown defaultWeights.drawdown
      (by norm_num [defaultWeights])
    have h4 := rs_component_nonneg relative_strength defaultWeights.relative_strength
      (by norm_num [defaultWeights])
    linarith
  · exact min_le_right _ _

/-- C3 counterexample: at drawdown `-1` the drawdown term contributes
`11/4`, strictly more than its configured default weight `1/4`, and the
excess is observable in the final score, which saturates at `1` even
though only the drawdown component is active. -/
theorem c3_counterexample :
    defaultWeights.drawdown < drawdown_component (-1) defaultWeights.drawdown ∧
    compute_discovery_score (-1) 0 false 0 defaultWeights = 1 := by
  constructor
  · norm_num [defaultWeights, drawdown_component]
  · norm_num [compute_discovery_score, defaultWeights, drawdown_component,
      above_ma_component, slope_component, rs_component, min_def]

/-- C3 (amended): with non-negative configured weights, the above-MA,
slope and relative-strength components each contribute at most their
weight for every input, and the drawdown component does so whenever the
drawdown input is non-negative (for negative drawdowns it can exceed its
weight). -/
theorem c3_components_at_most_weight (drawdown slope relative_strength : ℚ)
    (above : Bool) (w : Weights) (hw1 : 0 ≤ w.above_ma) (hw2 : 0 ≤ w.slope)
    (hw3 : 0 ≤ w.drawdown) (hw4 : 0 ≤ w.relative_strength) (hd : 0 ≤ drawdown) :
    above_ma_component above w.above_ma ≤ w.above_ma ∧
    slope_component slope w.slope ≤ w.slope ∧
    drawdown_component drawdown w.drawdown ≤ w.drawdown ∧
    rs_component relative_strength w.relative_strength ≤ w.relative_strength := by
  refine ⟨?_, slope_component_le slope w.slope hw2,
    drawdown_component_le drawdown w.drawdown hd hw3,
    rs_component_le relative_strength w.relative_strength hw4⟩
  rcases above_ma_component_le above w.above_ma with h | h
  · exact h
  · rw [h]; exact hw1

theorem c3_components_at_most_weight_witness :
    above_ma_component true defaultWeights.above_ma ≤ defaultWeights.above_ma ∧
    slope_component 10 defaultWeights.slope ≤ defaultWeights.slope ∧
    drawdown_component 0.05 defaultWeights.drawdown ≤ defaultWeights.drawdown ∧
    rs_component 100 defaultWeights.relative_strength ≤ defaultWeights.relative_strength :=
  c3_components_at_most_weight 0.05 10 100 true defaultWeights
    (by norm_num [defaultWeights]) (by norm_num [defaultWeights])
    (by norm_num [defaultWeights]) (by norm_num [defaultWeights]) (by norm_num)

/-- C5 counterexample: the claimed bound `drawdown(p, h) ∈ [0, 1]` for all
`p ≥ 0`, `h > 0` fails at `p = 2`, `h = 1`, where the drawdown is `-1`. -/
theorem c5_counterexample :
    (0 : ℚ) ≤ 2 ∧ (0 : ℚ) < 1 ∧ compute_drawdown 2 1 < 0 := by
  norm_num [compute_drawdown]

/-- C5 (amended): for `p ≥ 0` and `h > 0` the drawdown is at most `1` and
is non-negative exactly when `p ≤ h`, so it lies in `[0, 1]` under the
additional premise `p ≤ h`; a non-positive reference high yields `0`. -/
theorem c5_drawdown_range (p h : ℚ) :
    (0 ≤ p → 0 < h → compute_drawdown p h ≤ 1) ∧
    (0 ≤ p → p ≤ h → 0 < h →
      0 ≤ compute_drawdown p h ∧ compute_drawdown p h ≤ 1) ∧
    compute_drawdown p 0 = 0 := by
  unfold compute_drawdown
  refine ⟨?_, ?_, by norm_num⟩
  · intro hp hh
    rw [if_neg (by linarith)]
    rw [div_le_one hh]
    linarith
  · intro hp hph hh
    rw [if_neg (by linarith)]
    refine ⟨div_nonneg (by linarith) hh.le, ?_⟩
    rw [div_le_one hh]
    linarith

theorem c5_drawdown_range_witness :
    compute_drawdown 1 2 ≤ 1 ∧
    (0 ≤ compute_drawdown 1 2 ∧ compute_drawdown 1 2 ≤ 1) ∧
    compute_drawdown 1 0 = 0 :=
  ⟨(c5_drawdown_range 1 2).1 (by norm_num) (by norm_num),
   (c5_drawdown_range 1 2).2.1 (by norm_num) (by norm_num) (by norm_num),
   (c5_drawdown_range 1 0).2.2⟩

/-- C1 counterexample: on the three-observation high series `[1, 2, 3]`
(fewer than the 5 observations of the weekly window) the weekly entry is
the best-effort maximum `3`, not the claimed `0`. -/
theorem c1_counterexample :
    ([1, 2, 3] : List ℚ).length < 5 ∧
    (get_multi_timeframe_highs [1, 2, 3]).high_1w = 3 ∧ (3 : ℚ) ≠ 0 := by
  refine ⟨by norm_num, ?_, by norm_num⟩
  norm_num [get_multi_timeframe_highs, get_period_high, tail_n, list_max, max_def]

/-- C1 (amended): each multi-timeframe high entry (N = 5, 21, 63) is the
maximum over the trailing `min N length` observations of a non-empty high
series — a best-effort maximum over the available observations when the
series is shorter than N, and `0` only for an empty series. -/
theorem c1_period_highs (hs : List ℚ) (h : hs ≠ []) :
    is_max_of (get_multi_timeframe_highs hs).high_1w (tail_n hs 5) ∧
    is_max_of (get_multi_timeframe_highs hs).high_1m (tail_n hs 21) ∧
    is_max_of (get_multi_timeframe_highs hs).high_3m (tail_n hs 63) ∧
    (tail_n hs 5).length = min 5 hs.length ∧
    (tail_n hs 21).length = min 21 hs.length ∧
    (tail_n hs 63).length = min 63 hs.length := by
  have key : ∀ n : Nat, 0 < n → is_max_of (get_period_high hs n) (tail_n hs n) := by
    intro n hn
    apply list_max_spec
    have hpos : 0 < (tail_n hs n).length := by
      rw [tail_n_length]
      have := List.length_pos.mpr h
      omega
    exact List.ne_nil_of_length_pos hpos
  exact ⟨key 5 (by norm_num), key 21 (by norm_num), key 63 (by norm_num),
    tail_n_length hs 5, tail_n_length hs 21, tail_n_length hs 63⟩

theorem c1_period_highs_witness :
    is_max_of (get_multi_timeframe_highs ([1, 2, 3] : List ℚ)).high_1w (tail_n [1, 2, 3] 5) ∧
    is_max_of (get_multi_timeframe_highs ([1, 2, 3] : List ℚ)).high_1m (tail_n [1, 2, 3] 21) ∧
    is_max_of (get_multi_timeframe_highs ([1, 2, 3] : List ℚ)).high_3m (tail_n [1, 2, 3] 63) ∧
    (tail_n ([1, 2, 3] : List ℚ) 5).length = min 5 ([1, 2, 3] : List ℚ).length ∧
    (tail_n ([1, 2, 3] : List ℚ) 21).length = min 21 ([1, 2, 3] : List ℚ).length ∧
    (tail_n ([1, 2, 3] : List ℚ) 63).length = min 63 ([1, 2, 3] : List ℚ).length :=
  c1_period_highs [1, 2, 3] (by simp)

/-- C8: the Stress Opportunities classifier has no rejection path — for
every symbol with a non-empty close series it returns a record, whose
status is "opportunity_zone" exactly when the drawdown from the
dip-lookback high lies in the inclusive configured range, and "watch"
otherwise. -/
theorem c8_stress_opportunity_total (symbol : String)
    (close_series high_series : List ℚ) (t : StressThresholds)
    (h : close_series ≠ []) :
    (evaluate_stress_opportunity_candidate symbol close_series high_series t).isSome
      = true ∧
    (evaluate_stress_opportunity_candidate symbol close_series high_series t).map
        (fun r => r.status) =
      some (if t.min_drawdown ≤ compute_drawdown (close_series.getLastD 0)
                (get_period_high high_series t.dip_lookback_days) ∧
              compute_drawdown (close_series.getLastD 0)
                (get_period_high high_series t.dip_lookback_days) ≤ t.max_drawdown
            then "opportunity_zone" else "watch") := by
  constructor
  · rfl
  · rfl

theorem c8_stress_opportunity_total_witness :
    (evaluate_stress_opportunity_candidate "BAC" [100] [] defaultStressThresholds).isSome
      = true ∧
    (evaluate_stress_opportunity_candidate "BAC" [100] [] defaultStressThresholds).map
        (fun r => r.status) =
      some (if defaultStressThresholds.min_drawdown ≤
                compute_drawdown (([100] : List ℚ).getLastD 0)
                  (get_period_high [] defaultStressThresholds.dip_lookback_days) ∧
              compute_drawdown (([100] : List ℚ).getLastD 0)
                (get_period_high [] defaultStressThresholds.dip_lookback_days) ≤
                defaultStressThresholds.max_drawdown
            then "opportunity_zone" else "watch") :=
  c8_stress_opportunity_total "BAC" [100] [] defaultStressThresholds (by simp)

/-- C6: the always-computed monitor status label takes exactly one of the
five values, and the priority order puts the bearish crossover first: on
any series where both the crossover and the drawdown-exceeds-threshold
conditions hold, the label is EXIT RISK with the crossover reason. -/
theorem c6_status_label_priority (symbol : String)
    (close_series high_series : List ℚ)
    (et : ExitThresholds) (nt : EntryThresholds) (d50 d100 : ℚ)
    (h50 : get_ma_value close_series 50 = some d50)
    (h100 : get_ma_value close_series 100 = some d100)
    (hlen : ¬ close_series.length < 100)
    (hcross : d50 < d100)
    (hdd : et.drawdown_exit_threshold ≤ compute_drawdown (close_series.getLastD 0)
      (get_multi_timeframe_highs high_series).high_1d) :
    ((get_symbol_metrics symbol close_series high_series et nt).map
        (fun m => (m.status, m.status_reason))
      = some ("🚨 EXIT RISK", MetricsReason.maCrossover)) ∧
    (∀ (sym2 : String) (cs hs : List ℚ) (et2 : ExitThresholds)
        (nt2 : EntryThresholds) (m : MonitorMetrics),
      get_symbol_metrics sym2 cs hs et2 nt2 = some m →
      m.status = "🚨 EXIT RISK" ∨ m.status = "🟢 ENTRY OPP" ∨
      m.status = "✅ HEALTHY" ∨ m.status = "👀 WATCH" ∨ m.status = "⏸️ WAIT") := by
  constructor
  · unfold get_symbol_metrics
    rw [if_neg hlen, h50, h100]
    simp only [Option.map_some']
    rw [if_pos hcross]
  · intro sym2 cs hs et2 nt2 m hm
    unfold get_symbol_metrics at hm
    split at hm
    · simp at hm
    · split at hm
      · rw [Option.some.injEq] at hm
        subst hm
        simp only []
        split
        · simp
        · split
          · simp
          · split
            · simp
            · split
              · simp
              · split
                · simp
                · simp
      · simp at hm

theorem dropna_map_some (l : List ℚ) : dropna (l.map some) = l := by
  rw [dropna, List.filterMap_map]
  simp

theorem get_close_series_mk (n : Nat) (c h : List ℚ) (hn : n ≠ 0) :
    get_close_series ⟨n, c.map some, h.map some⟩ = c := by
  rw [get_close_series, if_neg hn]
  exact dropna_map_some c

theorem get_high_series_mk (n : Nat) (c h : List ℚ) (hn : n ≠ 0) :
    get_high_series ⟨n, c.map some, h.map some⟩ = h := by
  rw [get_high_series, if_neg hn]
  exact dropna_map_some h

theorem getLast?_replicate_pos (n : Nat) (x : ℚ) (hn : 0 < n) :
    (List.replicate n x).getLast? = some x := by
  obtain ⟨m, rfl⟩ : ∃ m, n = m + 1 := ⟨n - 1, by omega⟩
  rw [List.replicate_succ', List.getLast?_concat]

theorem getLastD_replicate (n : Nat) (x d : ℚ) (hn : 0 < n) :
    (List.replicate n x).getLastD d = x := by
  rw [List.getLastD_eq_getLast?, getLast?_replicate_pos n x hn]
  rfl

theorem getLastD_append_replicate (l : List ℚ) (n : Nat) (x d : ℚ) (hn : 0 < n) :
    (l ++ List.replicate n x).getLastD d = x := by
  rw [List.getLastD_eq_getLast?, List.getLast?_append, getLast?_replicate_pos n x hn]
  rfl

theorem list_max_eval (l : List ℚ) (v : ℚ) (hne : l ≠ []) (hmem : v ∈ l)
    (hbound : ∀ x ∈ l, x ≤ v) : list_max l = v := by
  obtain ⟨hm, hb⟩ := list_max_spec l hne
  exact le_antisymm (hbound _ hm) (hb v hmem)

theorem foldl_min_eq_or_mem (xs : List ℚ) : ∀ x : ℚ,
    xs.foldl min x = x ∨ xs.foldl min x ∈ xs := by
  induction xs with
  | nil => intro x; exact Or.inl rfl
  | cons y ys ih =>
    intro x
    rcases ih (min x y) with h | h
    · rcases min_choice x y with hm | hm
      · exact Or.inl (by rw [List.foldl_cons, h, hm])
      · refine Or.inr ?_
        rw [List.foldl_cons, h, hm]
        exact List.mem_cons_self _ _
    · exact Or.inr (List.mem_cons_of_mem _ (by rw [List.foldl_cons]; exact h))

theorem list_min_mem (l : List ℚ) (h : l ≠ []) : list_min l ∈ l := by
  match l with
  | x :: xs =>
    rcases foldl_min_eq_or_mem xs x with h1 | h1
    · rw [list_min, h1]; exact List.mem_cons_self _ _
    · exact List.mem_cons_of_mem _ h1

theorem list_max_replicate_pos (n : Nat) (x : ℚ) (hn : 0 < n) :
    list_max (List.replicate n x) = x := by
  obtain ⟨m, rfl⟩ : ∃ m, n = m + 1 := ⟨n - 1, by omega⟩
  exact list_max_replicate m x

theorem tail_n_map_range (f : Nat → α) (n k : Nat) (h : k ≤ n) :
    tail_n ((List.range n).map f) k = (List.range k).map (fun j => f (n - k + j)) := by
  obtain ⟨m, rfl⟩ : ∃ m, n = m + k := ⟨n - k, by omega⟩
  rw [tail_n, List.length_map, List.length_range, Nat.add_sub_cancel]
  rw [← List.map_drop]
  rw [List.range_add, List.drop_left' (by rw [List.length_range])]
  rw [List.map_map]
  rfl

theorem fixA_close_length : fixA_close.length = 100 := by
  simp [fixA_close]

theorem fixA_close_ma50 : get_ma_value fixA_close 50 = some 2 := by
  rw [get_ma_value_eq _ _ (by norm_num) (by rw [fixA_close_length]; norm_num)]
  have ht : tail_n fixA_close 50 = List.replicate 50 (2 : ℚ) := by
    rw [tail_n, fixA_close_length, show (100 - 50 : Nat) = 50 by norm_num]
    exact List.drop_left' (by simp [fixA_close])
  rw [ht, List.sum_replicate]
  norm_num [nsmul_eq_mul]

theorem fixA_close_ma100 : get_ma_value fixA_close 100 = some 3 := by
  rw [get_ma_value_eq _ _ (by norm_num) (by rw [fixA_close_length])]
  have ht : tail_n fixA_close 100 = fixA_close := by
    rw [tail_n, fixA_close_length, Nat.sub_self, List.drop_zero]
  rw [ht, fixA_close, List.sum_append, List.sum_replicate, List.sum_replicate]
  norm_num [nsmul_eq_mul]

theorem fixA_close_last : fixA_close.getLastD 0 = 2 := by
  rw [fixA_close]
  exact getLastD_append_replicate _ 50 2 0 (by norm_num)

theorem flat_high_last : flat_high_100.getLastD 0 = 100 := by
  rw [flat_high_100]
  exact getLastD_replicate 100 100 0 (by norm_num)

theorem flat_high_period (k : Nat) (hk : 0 < k) :
    get_period_high flat_high_100 k = 100 := by
  rw [get_period_high, flat_high_100, tail_n, List.length_replicate,
    List.drop_replicate]
  exact list_max_replicate_pos _ _ (by omega)

theorem fixB_close_length : fixB_close.length = 100 := by
  simp [fixB_close]

theorem fixB_close_ma50 : get_ma_value fixB_close 50 = some (2252 / 25) := by
  rw [get_ma_value_eq _ _ (by norm_num) (by rw [fixB_close_length]; norm_num)]
  have ht : tail_n fixB_close 50 = List.replicate 49 (90 : ℚ) ++ [94] := by
    rw [tail_n, fixB_close_length, show (100 - 50 : Nat) = 50 by norm_num, fixB_close]
    rw [List.drop_append_of_le_length (by simp), List.drop_replicate]
  rw [ht, List.sum_append, List.sum_replicate]
  norm_num [nsmul_eq_mul]

theorem fixB_close_ma100 : get_ma_value fixB_close 100 = some (2251 / 25) := by
  rw [get_ma_value_eq _ _ (by norm_num) (by rw [fixB_close_length])]
  have ht : tail_n fixB_close 100 = fixB_close := by
    rw [tail_n, fixB_close_length, Nat.sub_self, List.drop_zero]
  rw [ht, fixB_close, List.sum_append, List.sum_replicate]
  norm_num [nsmul_eq_mul]

theorem fixB_close_last : fixB_close.getLastD 0 = 94 := by
  rw [fixB_close, List.getLastD_concat]

theorem fixB_slope : compute_ma_slope fixB_close 100 10 = 0 := by
  rw [compute_ma_slope, dropna_compute_ma _ _ (by norm_num)]
  rw [if_pos (by rw [List.length_map, List.length_range, fixB_close_length]; norm_num)]

theorem fixB_sum : fixB_close.sum = 9004 := by
  rw [fixB_close, List.sum_append, List.sum_replicate]
  norm_num [nsmul_eq_mul]

theorem fixB_tail3 : tail_n fixB_close 3 = [90, 90, 94] := by
  rw [tail_n, fixB_close_length, show (100 - 3 : Nat) = 97 by norm_num, fixB_close]
  rw [List.drop_append_of_le_length (by simp), List.drop_replicate,
    show (99 - 97 : Nat) = 2 by norm_num]
  rfl

theorem fixB_tail5 : tail_n fixB_close 5 = [90, 90, 90, 90, 94] := by
  rw [tail_n, fixB_close_length, show (100 - 5 : Nat) = 95 by norm_num, fixB_close]
  rw [List.drop_append_of_le_length (by simp), List.drop_replicate,
    show (99 - 95 : Nat) = 4 by norm_num]
  rfl

theorem fixB_ma_tail3 : tail_n (compute_ma fixB_close 100) 3 =
    [none, none, some (2251 / 25 : ℚ)] := by
  rw [compute_ma, fixB_close_length, tail_n_map_range _ _ _ (by norm_num)]
  have htake : fixB_close.take 100 = fixB_close :=
    List.take_of_length_le (by rw [fixB_close_length])
  norm_num [List.range_succ, htake, fixB_sum]

theorem fixB_days_below : days_below_ma fixB_close 100 3 = 0 := by
  rw [days_below_ma]
  rw [if_neg (by rw [fixB_close_length]; norm_num)]
  have hcmp : ¬ ((94 : ℚ) < 2251 / 25) := by norm_num
  simp only [fixB_tail3, fixB_ma_tail3]
  norm_num [List.zip, List.zipWith, List.filter, hcmp]

theorem fixB_stability : check_stability fixB_close 5 (7 / 100) = true := by
  rw [check_stability]
  rw [if_neg (by rw [fixB_close_length]; norm_num)]
  rw [fixB_tail5]
  norm_num [pct_changes, list_min, min_def]

theorem fixA_close_lastQ : fixA_close.getLast? = some 2 := by
  rw [fixA_close, List.getLast?_append, getLast?_replicate_pos 50 2 (by norm_num)]
  rfl

theorem fixB_close_lastQ : fixB_close.getLast? = some 94 := by
  rw [fixB_close, List.getLast?_append]
  rfl

theorem lemA_exit :
    check_exit_risk "A" fixA_close flat_high_100 defaultExitThresholds
      = some fixA_alert := by
  have hx : is_ma_crossover_bearish 2 3 = true := by
    rw [is_ma_crossover_bearish]
    norm_num
  rw [check_exit_risk]
  norm_num [defaultExitThresholds, fixA_close_ma50, fixA_close_ma100, hx,
    fixA_close_last, fixA_close_lastQ, fixA_alert]

theorem lemB_exit :
    check_exit_risk "B" fixB_close flat_high_100 defaultExitThresholds = none := by
  have hx : is_ma_crossover_bearish (2252 / 25) (2251 / 25) = false := by
    rw [is_ma_crossover_bearish]
    norm_num
  have hph63 : get_period_high flat_high_100 63 = 100 := flat_high_period 63 (by norm_num)
  rw [check_exit_risk]
  norm_num [defaultExitThresholds, fixB_close_ma50, fixB_close_ma100, hx,
    fixB_close_last, fixB_close_lastQ, hph63, compute_drawdown, fixB_days_below]

theorem lemB_entry :
    check_entry_opportunity "B" fixB_close flat_high_100 defaultEntryThresholds
      = some fixB_alert := by
  have hph42 : get_period_high flat_high_100 42 = 100 := flat_high_period 42 (by norm_num)
  rw [check_entry_opportunity]
  norm_num [defaultEntryThresholds, fixB_close_ma50, fixB_close_ma100, fixB_slope,
    fixB_stability, fixB_close_last, fixB_close_lastQ, hph42, compute_drawdown,
    is_above_ma, is_ma_slope_rising, is_overheated, Option.getD, fixB_alert]

theorem analyze_go_nil (d : List (String × DataFrame)) (et : ExitThresholds)
    (nt : EntryThresholds) (st : StressThresholds) (ss : List String) (ms : Bool) :
    analyze_go d et nt st ss ms [] = ⟨[], [], [], []⟩ := rfl

theorem analyze_go_cons_exit (d : List (String × DataFrame)) (et : ExitThresholds)
    (nt : EntryThresholds) (st : StressThresholds) (ss : List String) (ms : Bool)
    (sym : String) (rest : List String) :
    (analyze_go d et nt st ss ms (sym :: rest)).exit_risks =
      (match d.lookup sym with
       | none => []
       | some df =>
         if df.nrows < 100 then []
         else if ss.contains sym then []
         else (check_exit_risk sym (get_close_series df) (get_high_series df) et).toList)
      ++ (analyze_go d et nt st ss ms rest).exit_risks := by
  rcases hl : d.lookup sym with _ | df
  · simp [analyze_go, hl]
  · by_cases hn : df.nrows < 100
    · simp [analyze_go, hl, hn]
    · by_cases hc : sym ∈ ss
      · rcases hm : get_symbol_metrics sym (get_close_series df) (get_high_series df) et nt
            with _ | m
          <;> rcases hb : check_bank_opportunity sym (get_close_series df) (get_high_series df) st ms
            with _ | b
          <;> simp [analyze_go, hl, hn, hc, hm, hb, Option.toList]
      · rcases hm : get_symbol_metrics sym (get_close_series df) (get_high_series df) et nt
            with _ | m
          <;> rcases he : check_exit_risk sym (get_close_series df) (get_high_series df) et
            with _ | a
          <;> rcases hen : check_entry_opportunity sym (get_close_series df) (get_high_series df) nt
            with _ | e
          <;> simp [analyze_go, hl, hn, hc, hm, he, hen, Option.toList]

theorem analyze_go_cons_entry (d : List (String × DataFrame)) (et : ExitThresholds)
    (nt : EntryThresholds) (st : StressThresholds) (ss : List String) (ms : Bool)
    (sym : String) (rest : List String) :
    (analyze_go d et nt st ss ms (sym :: rest)).entry_opps =
      (match d.lookup sym with
       | none => []
       | some df =>
         if df.nrows < 100 then []
         else if ss.contains sym then []
         else match check_exit_risk sym (get_close_series df) (get_high_series df) et with
           | some _ => []
           | none =>
             (check_entry_opportunity sym (get_close_series df) (get_high_series df) nt).toList)
      ++ (analyze_go d et nt st ss ms rest).entry_opps := by
  rcases hl : d.lookup sym with _ | df
  · simp [analyze_go, hl]
  · by_cases hn : df.nrows < 100
    · simp [analyze_go, hl, hn]
    · by_cases hc : sym ∈ ss
      · rcases hm : get_symbol_metrics sym (get_close_series df) (get_high_series df) et nt
            with _ | m
          <;> rcases hb : check_bank_opportunity sym (get_close_series df) (get_high_series df) st ms
            with _ | b
          <;> simp [analyze_go, hl, hn, hc, hm, hb, Option.toList]
      · rcases hm : get_symbol_metrics sym (get_close_series df) (get_high_series df) et nt
            with _ | m
          <;> rcases he : check_exit_risk sym (get_close_series df) (get_high_series df) et
            with _ | a
          <;> rcases hen : check_entry_opportunity sym (get_close_series df) (get_high_series df) nt
            with _ | e
          <;> simp [analyze_go, hl, hn, hc, hm, he, hen, Option.toList]

theorem exit_alert_symbol (sym : String) (c h : List ℚ) (t : ExitThresholds)
    (a : ExitAlert) (ha : check_exit_risk sym c h t = some a) : a.symbol = sym := by
  unfold check_exit_risk at ha
  iterate 10
    all_goals
      first
        | (rw [Option.some.injEq] at ha; subst ha; rfl)
        | (obtain ⟨-, ha⟩ := ha; subst ha; rfl)
        | (obtain ⟨-, -, ha⟩ := ha; subst ha; rfl)
        | split at ha
        | simp at ha
        | skip

theorem entry_alert_symbol (sym : String) (c h : List ℚ) (t : EntryThresholds)
    (e : EntryAlert) (he : check_entry_opportunity sym c h t = some e) : e.symbol = sym := by
  unfold check_entry_opportunity at he
  iterate 14
    all_goals
      first
        | (rw [Option.some.injEq] at he; subst he; rfl)
        | (obtain ⟨-, he⟩ := he; subst he; rfl)
        | (obtain ⟨-, -, he⟩ := he; subst he; rfl)
        | (obtain ⟨-, -, -, -, he⟩ := he; subst he; rfl)
        | split at he
        | simp at he
        | skip

theorem analyze_go_exit_mem (d : List (String × DataFrame)) (et : ExitThresholds)
    (nt : EntryThresholds) (st : StressThresholds) (ss : List String) (ms : Bool) :
    ∀ (syms : List String) (a : ExitAlert),
      a ∈ (analyze_go d et nt st ss ms syms).exit_risks →
      ∃ df, d.lookup a.symbol = some df ∧ a.symbol ∉ ss ∧ ¬ df.nrows < 100 ∧
        check_exit_risk a.symbol (get_close_series df) (get_high_series df) et = some a := by
  intro syms
  induction syms with
  | nil =>
    intro a ha
    rw [analyze_go_nil] at ha
    simp at ha
  | cons sym rest ih =>
    intro a ha
    rw [analyze_go_cons_exit, List.mem_append] at ha
    rcases ha with ha | ha
    · rcases hl : d.lookup sym with _ | df
      · rw [hl] at ha; simp at ha
      · rw [hl] at ha
        by_cases hn : df.nrows < 100
        · simp [hn] at ha
        · by_cases hc : sym ∈ ss
          · simp [hn, hc] at ha
          · rcases he : check_exit_risk sym (get_close_series df) (get_high_series df) et
                with _ | b
            · simp [hn, hc, he] at ha
            · simp [hn, hc, he, Option.toList] at ha
              subst ha
              have hsym : a.symbol = sym := exit_alert_symbol sym _ _ et a he
              rw [hsym]
              exact ⟨df, hl, hc, hn, he⟩
    · exact ih a ha

theorem analyze_go_entry_mem (d : List (String × DataFrame)) (et : ExitThresholds)
    (nt : EntryThresholds) (st : StressThresholds) (ss : List String) (ms : Bool) :
    ∀ (syms : List String) (e : EntryAlert),
      e ∈ (analyze_go d et nt st ss ms syms).entry_opps →
      ∃ df, d.lookup e.symbol = some df ∧ e.symbol ∉ ss ∧ ¬ df.nrows < 100 ∧
        check_exit_risk e.symbol (get_close_series df) (get_high_series df) et = none ∧
        check_entry_opportunity e.symbol (get_close_series df) (get_high_series df) nt
          = some e := by
  intro syms
  induction syms with
  | nil =>
    intro e he
    rw [analyze_go_nil] at he
    simp at he
  | cons sym rest ih =>
    intro e he
    rw [analyze_go_cons_entry, List.mem_append] at he
    rcases he with he | he
    · rcases hl : d.lookup sym with _ | df
      · rw [hl] at he; simp at he
      · rw [hl] at he
        by_cases hn : df.nrows < 100
        · simp [hn] at he
        · by_cases hc : sym ∈ ss
          · simp [hn, hc] at he
          · rcases hex : check_exit_risk sym (get_close_series df) (get_high_series df) et
                with _ | b
            · rcases hen : check_entry_opportunity sym (get_close_series df)
                  (get_high_series df) nt with _ | b2
              · simp [hn, hc, hex, hen] at he
              · simp [hn, hc, hex, hen, Option.toList] at he
                subst he
                have hsym : e.symbol = sym := entry_alert_symbol sym _ _ nt e hen
                rw [hsym]
                exact ⟨df, hl, hc, hn, hex, hen⟩
            · simp [hn, hc, hex] at he
    · exact ih e he

/-- C9: within one monitor run, a symbol that produced an exit-risk alert
is never also reported as an entry opportunity — exit is checked first and
short-circuits the entry check for that symbol. -/
theorem c9_exit_entry_mutually_exclusive (monitor_symbols : List String)
    (all_data : List (String × DataFrame)) (et : ExitThresholds)
    (nt : EntryThresholds) (st : StressThresholds) (stress_symbols : List String)
    (a : ExitAlert) (e : EntryAlert)
    (ha : a ∈ (analyze_monitored_symbols monitor_symbols all_data et nt st
      stress_symbols).exit_risks)
    (he : e ∈ (analyze_monitored_symbols monitor_symbols all_data et nt st
      stress_symbols).entry_opps) :
    a.symbol ≠ e.symbol := by
  intro hsym
  obtain ⟨df1, hl1, _, _, hex⟩ :=
    analyze_go_exit_mem all_data et nt st stress_symbols _ monitor_symbols a ha
  obtain ⟨df2, hl2, _, _, hexnone, _⟩ :=
    analyze_go_entry_mem all_data et nt st stress_symbols _ monitor_symbols e he
  rw [hsym] at hl1 hex
  rw [hl1, Option.some.injEq] at hl2
  subst hl2
  rw [hex] at hexnone
  exact Option.noConfusion hexnone

/-- C10: in the monitor alerting flow a symbol of the stress-opportunities
category is routed to the bank-opportunity check only — it never appears
in the exit-risk list nor in the entry-opportunity list of a run. -/
theorem c10_stress_symbols_never_exit_entry (monitor_symbols : List String)
    (all_data : List (String × DataFrame)) (et : ExitThresholds)
    (nt : EntryThresholds) (st : StressThresholds) (stress_symbols : List String) :
    (∀ a ∈ (analyze_monitored_symbols monitor_symbols all_data et nt st
        stress_symbols).exit_risks, a.symbol ∉ stress_symbols) ∧
    (∀ e ∈ (analyze_monitored_symbols monitor_symbols all_data et nt st
        stress_symbols).entry_opps, e.symbol ∉ stress_symbols) := by
  constructor
  · intro a ha
    obtain ⟨df, _, hns, _, _⟩ :=
      analyze_go_exit_mem all_data et nt st stress_symbols _ monitor_symbols a ha
    exact hns
  · intro e he
    obtain ⟨df, _, hns, _, _, _⟩ :=
      analyze_go_entry_mem all_data et nt st stress_symbols _ monitor_symbols e he
    exact hns

theorem fixA_frame_close : get_close_series fixA_frame = fixA_close := by
  rw [fixA_frame]
  exact get_close_series_mk 100 _ _ (by norm_num)

theorem fixA_frame_high : get_high_series fixA_frame = flat_high_100 := by
  rw [fixA_frame]
  exact get_high_series_mk 100 _ _ (by norm_num)

theorem fixB_frame_close : get_close_series fixB_frame = fixB_close := by
  rw [fixB_frame]
  exact get_close_series_mk 100 _ _ (by norm_num)

theorem fixB_frame_high : get_high_series fixB_frame = flat_high_100 := by
  rw [fixB_frame]
  exact get_high_series_mk 100 _ _ (by norm_num)

theorem fixA_frame_nrows : fixA_frame.nrows = 100 := rfl

theorem fixB_frame_nrows : fixB_frame.nrows = 100 := rfl

theorem c9run_exit :
    (analyze_monitored_symbols ["A", "B"] fixData defaultExitThresholds
      defaultEntryThresholds defaultStressThresholds []).exit_risks = [fixA_alert] := by
  rw [analyze_monitored_symbols, analyze_go_cons_exit, analyze_go_cons_exit,
    analyze_go_nil]
  simp [fixData, List.lookup, fixA_frame_nrows, fixB_frame_nrows, fixA_frame_close,
    fixA_frame_high, fixB_frame_close, fixB_frame_high, lemA_exit, lemB_exit,
    Option.toList]

theorem c9run_entry :
    (analyze_monitored_symbols ["A", "B"] fixData defaultExitThresholds
      defaultEntryThresholds defaultStressThresholds []).entry_opps = [fixB_alert] := by
  rw [analyze_monitored_symbols, analyze_go_cons_entry, analyze_go_cons_entry,
    analyze_go_nil]
  simp [fixData, List.lookup, fixA_frame_nrows, fixB_frame_nrows, fixA_frame_close,
    fixA_frame_high, fixB_frame_close, fixB_frame_high, lemA_exit, lemB_exit,
    lemB_entry, Option.toList]

theorem c10run_exit :
    (analyze_monitored_symbols ["A", "S"] fixData10 defaultExitThresholds
      defaultEntryThresholds defaultStressThresholds ["S"]).exit_risks = [fixA_alert] := by
  rw [analyze_monitored_symbols, analyze_go_cons_exit, analyze_go_cons_exit,
    analyze_go_nil]
  simp [fixData10, List.lookup, fixA_frame_nrows, fixB_frame_nrows, fixA_frame_close,
    fixA_frame_high, lemA_exit, Option.toList]

theorem c9_exit_entry_mutually_exclusive_witness :
    fixA_alert ∈ (analyze_monitored_symbols ["A", "B"] fixData defaultExitThresholds
      defaultEntryThresholds defaultStressThresholds []).exit_risks ∧
    fixB_alert ∈ (analyze_monitored_symbols ["A", "B"] fixData defaultExitThresholds
      defaultEntryThresholds defaultStressThresholds []).entry_opps ∧
    fixA_alert.symbol ≠ fixB_alert.symbol := by
  refine ⟨?_, ?_, ?_⟩
  · rw [c9run_exit]
    exact List.mem_singleton.mpr rfl
  · rw [c9run_entry]
    exact List.mem_singleton.mpr rfl
  · exact c9_exit_entry_mutually_exclusive ["A", "B"] fixData defaultExitThresholds
      defaultEntryThresholds defaultStressThresholds [] fixA_alert fixB_alert
      (by rw [c9run_exit]; exact List.mem_singleton.mpr rfl)
      (by rw [c9run_entry]; exact List.mem_singleton.mpr rfl)

theorem c10_stress_symbols_never_exit_entry_witness :
    fixA_alert ∈ (analyze_monitored_symbols ["A", "S"] fixData10 defaultExitThresholds
      defaultEntryThresholds defaultStressThresholds ["S"]).exit_risks ∧
    fixA_alert.symbol ∉ (["S"] : List String) :=
  ⟨by rw [c10run_exit]; exact List.mem_singleton.mpr rfl,
   (c10_stress_symbols_never_exit_entry ["A", "S"] fixData10 defaultExitThresholds
      defaultEntryThresholds defaultStressThresholds ["S"]).1 fixA_alert
      (by rw [c10run_exit]; exact List.mem_singleton.mpr rfl)⟩

/-- C7: the bank-opportunity check returns nothing whenever fewer than 2 of
the 3 independent market-stress signals fire, even if the drawdown is in
range; with at least 2 signals firing and the drawdown from the
dip-lookback high exactly at the lower bound, it returns a record — both
drawdown bounds are inclusive. -/
theorem c7_bank_opportunity_stress_gate (all_data : List (String × DataFrame))
    (t : StressThresholds) (symbol : String) (close_series high_series : List ℚ) :
    (stress_signal_count all_data t < 2 → t.requires_stress_confirmation = true →
      check_bank_opportunity symbol close_series high_series t
        (check_market_stress all_data t) = none) ∧
    (2 ≤ stress_signal_count all_data t → t.enabled = true →
      t.min_drawdown ≤ t.max_drawdown →
      compute_drawdown (close_series.getLastD 0)
        (get_period_high high_series t.dip_lookback_days) = t.min_drawdown →
      (check_bank_opportunity symbol close_series high_series t
        (check_market_stress all_data t)).isSome = true) := by
  constructor
  · intro hcount hreq
    have hms : check_market_stress all_data t = false := by
      rw [check_market_stress, decide_eq_false_iff_not]
      omega
    rw [check_bank_opportunity, hms, hreq]
    by_cases hen : t.enabled
    · rw [if_neg (by simp [hen])]
      rw [if_pos (by simp)]
    · rw [if_pos (by simp [hen])]
  · intro hcount hen hminmax hdd
    have hms : check_market_stress all_data t = true := by
      rw [check_market_stress, decide_eq_true_eq]
      exact hcount
    rw [check_bank_opportunity, hms, hen]
    rw [if_neg (by simp)]
    rw [if_neg (by simp)]
    dsimp only
    rw [hdd]
    rw [if_neg (by push_neg; exact ⟨le_refl _, hminmax⟩)]
    rfl

theorem spy_signal_eval : spy_stress_signal stress_data defaultStressThresholds = 1 := by
  rw [spy_stress_signal]
  have hl : stress_data.lookup "SPY" = some spy_frame := by
    simp [stress_data, List.lookup]
  rw [hl]
  have hc : get_close_series spy_frame = [100, 50] := by
    rw [spy_frame, get_close_series, if_neg (by norm_num)]
    rfl
  have hh : get_high_series spy_frame = [100, 100] := by
    rw [spy_frame, get_high_series, if_neg (by norm_num)]
    rfl
  have hph : get_period_high ([100, 100] : List ℚ) 63 = 100 := by
    rw [get_period_high, tail_n]
    simp [list_max]
  norm_num [hc, hh, hph, defaultStressThresholds, compute_drawdown, List.getLastD]

theorem vixy_signal_eval : vixy_stress_signal stress_data defaultStressThresholds = 1 := by
  rw [vixy_stress_signal]
  have hl : stress_data.lookup "VIXY" = some vixy_frame := by
    simp [stress_data, List.lookup]
  have hc : get_close_series vixy_frame = List.replicate 9 (1 : ℚ) ++ [2] := by
    rw [vixy_frame, get_close_series, if_neg (by norm_num)]
    exact dropna_map_some _
  have hma : get_ma_value (List.replicate 9 (1 : ℚ) ++ [2]) 10 = some (11 / 10) := by
    rw [get_ma_value_eq _ _ (by norm_num) (by simp)]
    have ht : tail_n (List.replicate 9 (1 : ℚ) ++ [2]) 10 =
        List.replicate 9 (1 : ℚ) ++ [2] := by
      rw [tail_n]
      simp
    rw [ht, List.sum_append, List.sum_replicate]
    norm_num [nsmul_eq_mul]
  have hlast : (List.replicate 9 (1 : ℚ) ++ [2]).getLastD 0 = 2 := by
    rw [List.getLastD_eq_getLast?, List.getLast?_append]
    rfl
  norm_num [hl, hc, hma, hlast, defaultStressThresholds]

theorem kre_signal_eval : kre_stress_signal stress_data defaultStressThresholds = 0 := by
  rw [kre_stress_signal]
  have hl : stress_data.lookup "KRE" = none := by
    simp [stress_data, List.lookup]
  simp [hl, defaultStressThresholds]

theorem stress_count_eval :
    stress_signal_count stress_data defaultStressThresholds = 2 := by
  rw [stress_signal_count, spy_signal_eval, vixy_signal_eval, kre_signal_eval]

theorem bank_dd_eval :
    compute_drawdown (bank_close.getLastD 0)
      (get_period_high bank_high defaultStressThresholds.dip_lookback_days)
      = defaultStressThresholds.min_drawdown := by
  have hph : get_period_high bank_high 126 = 100 := by
    rw [bank_high, get_period_high, tail_n]
    simp [list_max]
  norm_num [bank_close, hph, defaultStressThresholds, compute_drawdown, List.getLastD]

theorem c7_bank_opportunity_stress_gate_witness :
    check_bank_opportunity "X" bank_close bank_high defaultStressThresholds
      (check_market_stress [] defaultStressThresholds) = none ∧
    (check_bank_opportunity "BAC" bank_close bank_high defaultStressThresholds
      (check_market_stress stress_data defaultStressThresholds)).isSome = true := by
  constructor
  · exact (c7_bank_opportunity_stress_gate [] defaultStressThresholds "X"
      bank_close bank_high).1
      (by rw [show stress_signal_count [] defaultStressThresholds = 0 from rfl]; norm_num)
      rfl
  · exact (c7_bank_opportunity_stress_gate stress_data defaultStressThresholds "BAC"
      bank_close bank_high).2
      (by rw [stress_count_eval]) rfl (by norm_num [defaultStressThresholds]) bank_dd_eval

theorem c4_close_length : c4_close.length = 110 := by
  simp [c4_close]

theorem c4_close_ma100 : get_ma_value c4_close 100 = some (909 / 10) := by
  rw [get_ma_value_eq _ _ (by norm_num) (by rw [c4_close_length]; norm_num)]
  have ht : tail_n c4_close 100 =
      List.replicate 91 (90 : ℚ) ++ List.replicate 9 100 := by
    rw [tail_n, c4_close_length, show (110 - 100 : Nat) = 10 by norm_num, c4_close]
    exact List.drop_left' (by simp)
  rw [ht, List.sum_append, List.sum_replicate, List.sum_replicate]
  norm_num [nsmul_eq_mul]

theorem c4_close_lastQ : c4_close.getLast? = some 100 := by
  rw [c4_close, List.getLast?_append, List.getLast?_append,
    getLast?_replicate_pos 9 100 (by norm_num)]
  rfl

theorem c4_close_last : c4_close.getLastD 0 = 100 := by
  rw [List.getLastD_eq_getLast?, c4_close_lastQ]
  rfl

theorem c4_w1 : ((c4_close.drop 1).take 100).sum = (9090 : ℚ) := by
  rw [c4_close, List.drop_append_of_le_length (by simp), List.drop_replicate,
    show (10 - 1 : Nat) = 9 by norm_num]
  rw [List.take_append_eq_append_take, List.take_of_length_le (by simp),
    List.length_replicate, show (100 - 9 : Nat) = 91 by norm_num]
  rw [List.take_append_eq_append_take, List.take_of_length_le (by simp),
    List.length_replicate, show (91 - 91 : Nat) = 0 by norm_num, List.take_zero]
  rw [List.append_nil, List.sum_append, List.sum_replicate, List.sum_replicate]
  norm_num [nsmul_eq_mul]

theorem c4_w10 : ((c4_close.drop 10).take 100).sum = (9090 : ℚ) := by
  rw [c4_close, List.drop_left' (by simp)]
  rw [List.take_of_length_le (by simp)]
  rw [List.sum_append, List.sum_replicate, List.sum_replicate]
  norm_num [nsmul_eq_mul]

theorem c4_w1_tail : (c4_close.tail.take 100).sum = (9090 : ℚ) := by
  rw [← List.drop_one]
  exact c4_w1

theorem c4_slope : compute_ma_slope c4_close 100 10 = 0 := by
  rw [compute_ma_slope]
  rw [dropna_compute_ma _ _ (by norm_num), c4_close_length,
    show (110 + 1 - 100 : Nat) = 11 from by norm_num]
  rw [if_neg (by rw [List.length_map, List.length_range]; norm_num)]
  rw [tail_n_map_range _ _ _ (by norm_num)]
  rw [show (11 - 10 : Nat) = 1 from by norm_num]
  rw [show List.range 10 = [0, 1, 2, 3, 4, 5, 6, 7, 8, 9] from rfl]
  simp only [List.map_cons, List.map_nil]
  norm_num [c4_w1, c4_w1_tail, c4_w10, List.getLastD_cons, List.getLastD]

theorem c4_high_length : c4_high.length = 110 := by
  simp [c4_high]

theorem c4_high_period42 : get_period_high c4_high 42 = 5000 / 47 := by
  have ht : tail_n c4_high 42 = List.replicate 41 (100 : ℚ) ++ [5000 / 47] := by
    rw [tail_n, c4_high_length, show (110 - 42 : Nat) = 68 from by norm_num, c4_high]
    rw [List.drop_append_of_le_length (by simp), List.drop_replicate,
      show (109 - 68 : Nat) = 41 from by norm_num]
  rw [get_period_high, ht]
  apply list_max_eval
  · simp
  · simp
  · intro x hx
    rcases List.mem_append.mp hx with hx | hx
    · rw [List.mem_replicate] at hx
      rw [hx.2]
      norm_num
    · rw [List.mem_singleton] at hx
      rw [hx]

theorem c4_above : is_above_ma (c4_close.getLastD 0) (909 / 10) = true := by
  rw [c4_close_last, is_above_ma]
  norm_num

theorem c4_dd : compute_drawdown (c4_close.getLastD 0)
    (get_period_high c4_high 42) = 0.06 := by
  rw [c4_close_last, c4_high_period42, compute_drawdown]
  norm_num

theorem core_trend_flat_gate_aux (symbol : String)
    (close_series high_series : List ℚ) (lma : ℚ)
    (h100 : get_ma_value close_series 100 = some lma)
    (habove : is_above_ma (close_series.getLastD 0) lma = true)
    (hslope : compute_ma_slope close_series 100 10 = 0)
    (hdd : compute_drawdown (close_series.getLastD 0)
      (get_period_high high_series 42) = 0.06) :
    evaluate_core_trend_candidate symbol close_series high_series
      defaultEntryThresholds defaultScoringThresholds = none := by
  have hscore : compute_discovery_score 0.06 0 true 0 defaultScoringThresholds.weights
      = 7 / 20 := by
    norm_num [compute_discovery_score, above_ma_component, slope_component,
      drawdown_component, rs_component, defaultScoringThresholds, defaultWeights,
      min_def]
  rw [evaluate_core_trend_candidate]
  dsimp only [defaultEntryThresholds]
  rw [h100]
  dsimp only
  rw [habove, hslope, hdd]
  simp only [Bool.not_true, Bool.false_eq_true, if_false]
  rw [if_neg (by norm_num)]
  rw [hscore]
  rw [if_pos (by norm_num [defaultScoringThresholds])]

/-- C4 counterexample: on a literal series that is flat above its 100-day
MA with a 0% MA slope and a drawdown of exactly 6% from the 42-day high
(inside the default pullback range), the Core Trend classifier returns
`none` rather than a "pullback_zone" record: the composite score is 0.35,
below the default minimum score 0.5. -/
theorem c4_counterexample :
    is_above_ma (c4_close.getLastD 0) (909 / 10) = true ∧
    get_ma_value c4_close 100 = some (909 / 10) ∧
    compute_ma_slope c4_close 100 10 = 0 ∧
    compute_drawdown (c4_close.getLastD 0) (get_period_high c4_high 42) = 0.06 ∧
    defaultEntryThresholds.min_pullback ≤ 0.06 ∧
    (0.06 : ℚ) < defaultEntryThresholds.max_pullback ∧
    evaluate_core_trend_candidate "X" c4_close c4_high defaultEntryThresholds
      defaultScoringThresholds = none :=
  ⟨c4_above, c4_close_ma100, c4_slope, c4_dd,
   by norm_num [defaultEntryThresholds], by norm_num [defaultEntryThresholds],
   core_trend_flat_gate_aux "X" c4_close c4_high (909 / 10) c4_close_ma100
     c4_above c4_slope c4_dd⟩

/-- C4 (amended): for every price series that is above its 100-day MA with
a 0% MA slope and a drawdown of exactly 6% from the 42-day high, the Core
Trend classifier under the default thresholds and scoring returns nothing:
with no slope or relative-strength credit the composite score is
0.25 + 0.10 = 0.35, which the default `min_score` of 0.5 rejects before
any status is assigned. -/
theorem c4_core_trend_score_gate (symbol : String)
    (close_series high_series : List ℚ) (lma : ℚ)
    (h100 : get_ma_value close_series 100 = some lma)
    (habove : is_above_ma (close_series.getLastD 0) lma = true)
    (hslope : compute_ma_slope close_series 100 10 = 0)
    (hdd : compute_drawdown (close_series.getLastD 0)
      (get_period_high high_series 42) = 0.06) :
    evaluate_core_trend_candidate symbol close_series high_series
      defaultEntryThresholds defaultScoringThresholds = none :=
  core_trend_flat_gate_aux symbol close_series high_series lma h100 habove hslope hdd

theorem c4_core_trend_score_gate_witness :
    evaluate_core_trend_candidate "X" c4_close c4_high defaultEntryThresholds
      defaultScoringThresholds = none :=
  c4_core_trend_score_gate "X" c4_close c4_high (909 / 10) c4_close_ma100
    c4_above c4_slope c4_dd

theorem c6_hdd : defaultExitThresholds.drawdown_exit_threshold ≤
    compute_drawdown (fixA_close.getLastD 0)
      (get_multi_timeframe_highs flat_high_100).high_1d := by
  have h1d : (get_multi_timeframe_highs flat_high_100).high_1d = 100 := by
    rw [get_multi_timeframe_highs]
    exact flat_high_last
  rw [h1d, fixA_close_last]
  norm_num [compute_drawdown, defaultExitThresholds]

theorem c6_status_label_priority_witness :
    (get_symbol_metrics "AAPL" fixA_close flat_high_100 defaultExitThresholds
      defaultEntryThresholds).map (fun m => (m.status, m.status_reason))
      = some ("🚨 EXIT RISK", MetricsReason.maCrossover) :=
  (c6_status_label_priority "AAPL" fixA_close flat_high_100 defaultExitThresholds
    defaultEntryThresholds 2 3 fixA_close_ma50 fixA_close_ma100
    (by rw [fixA_close_length]; norm_num) (by norm_num) c6_hdd).1
